import Mathlib

/-!
Shallow embedding of `lib/sqlalchemy/log.py`: per-instance log verbosity
control ("echo") layered over a hierarchical logging backend.

The Python standard-library logging backend (manager disable threshold,
per-logger effective-level resolution, handler lists) is an external
collaborator; it is modelled abstractly by `BackendState`, where
`effLevel name` is the backend logger's already-resolved effective level
(the result of its hierarchy walk) and `disable` is the manager-wide
suppression threshold (backend default 0).
-/

/-- Severity constants of the logging backend. -/
def logging.NOTSET : Nat := 0

def logging.DEBUG : Nat := 10

def logging.INFO : Nat := 20

def logging.WARNING : Nat := 30

def logging.ERROR : Nat := 40

def logging.CRITICAL : Nat := 50

/-- Backend manager's default `disable` threshold (`logging.Manager` starts
with `self.disable = 0`). -/
def Manager.defaultDisable : Nat := 0

/-- The `_EchoFlagType` values: `None`, `False`, `True`, `"debug"`. -/
inductive EchoFlag where
  | unset
  | off
  | on
  | debug
deriving DecidableEq, Repr

/-- A handler attached to a backend logger; `_add_default_handler` builds a
stream handler on stdout with the fixed format string. -/
structure Handler where
  stream : String
  format : String
deriving DecidableEq, Repr

/-- A pending call to the backend's low-level emit primitive
`logger._log(level, msg, args, stacklevel=...)`. -/
structure EmitCall where
  level : Nat
  msg : String
  args : List String
  stacklevel : Nat
deriving DecidableEq, Repr

/-- Abstract state of the backend logging facility: the manager-wide
`disable` threshold, each logger's resolved effective level, and each
logger's attached handler list. -/
structure BackendState where
  disable : Nat
  effLevel : String → Nat
  handlers : String → List Handler

/-- Backend `Logger.isEnabledFor` (stdlib semantics, per spec §6): false when
the manager disable threshold reaches the level, else compare with the
logger's resolved effective level. -/
def Logger.isEnabledFor (st : BackendState) (name : String) (level : Nat) : Bool :=
  if st.disable ≥ level then false
  else decide (level ≥ st.effLevel name)

/-- `STACKLEVEL = True` (module constant). -/
def STACKLEVEL : Bool := true

/-- `STACKLEVEL_OFFSET = 2 if py311 else 1`; `py311` is the runtime flag for
Python ≥ 3.11, taken as a parameter. -/
def STACKLEVEL_OFFSET (py311 : Bool) : Nat :=
  if py311 then 2 else 1

/-- Python truthiness of an `Optional[str]`: `None` and `""` are falsy. -/
def pyTruthy : Option String → Bool
  | none => false
  | some s => s ≠ ""

/-- The class-level data `_qual_logger_name_for_cls` consults: the optional
`_sqla_logger_namespace` attribute, `__module__` and `__name__`. -/
structure IdentifiedClass where
  sqla_logger_namespace : Option String
  module : String
  name : String
deriving DecidableEq, Repr

/-- `_qual_logger_name_for_cls`: the declared namespace if truthy, else
`module + "." + name` (Python `or` falls through on `None` and `""`). -/
def _qual_logger_name_for_cls (cls : IdentifiedClass) : String :=
  match cls.sqla_logger_namespace with
  | some ns => if ns ≠ "" then ns else cls.module ++ "." ++ cls.name
  | none => cls.module ++ "." ++ cls.name

/-- `InstanceLogger`: `__slots__ = ("echo", "logger")`; the wrapped backend
logger is identified by its name. -/
structure InstanceLogger where
  echo : EchoFlag
  logger : String
deriving DecidableEq, Repr

/-- `InstanceLogger._echo_map`. -/
def InstanceLogger._echo_map : EchoFlag → Nat
  | .unset => logging.NOTSET
  | .off => logging.NOTSET
  | .on => logging.INFO
  | .debug => logging.DEBUG

/-- `_add_default_handler(logger)`: append a stdout stream handler with the
fixed format to the logger's handler list. -/
def _add_default_handler (st : BackendState) (name : String) : BackendState :=
  { st with
    handlers := fun n =>
      if n = name then
        st.handlers n ++ [⟨"stdout", "%(asctime)s %(levelname)s %(name)s %(message)s"⟩]
      else st.handlers n }

/-- `InstanceLogger.__init__(echo, name)`: store the fields; if the echo-mapped
level is ≤ INFO and the backend logger has no handlers, attach the default
handler. -/
def InstanceLogger.init (echo : EchoFlag) (name : String) (st : BackendState) :
    InstanceLogger × BackendState :=
  let self : InstanceLogger := ⟨echo, name⟩
  if InstanceLogger._echo_map echo ≤ logging.INFO ∧ st.handlers name = [] then
    (self, _add_default_handler st name)
  else
    (self, st)

/-- `InstanceLogger.getEffectiveLevel`: the echo-mapped level, substituting the
backend logger's own effective level when the map yields NOTSET. -/
def InstanceLogger.getEffectiveLevel (self : InstanceLogger) (st : BackendState) : Nat :=
  let level := InstanceLogger._echo_map self.echo
  if level = logging.NOTSET then st.effLevel self.logger else level

/-- `InstanceLogger.isEnabledFor`: manager-disable check, then compare with
`getEffectiveLevel`. -/
def InstanceLogger.isEnabledFor (self : InstanceLogger) (st : BackendState) (level : Nat) : Bool :=
  if st.disable ≥ level then false
  else decide (level ≥ self.getEffectiveLevel st)

/-- `InstanceLogger.log(level, msg, *args, **kwargs)`: return early when the
manager disable threshold reaches `level`; resolve `selected_level` from the
echo map (substituting the backend effective level on NOTSET); when
`level ≥ selected_level`, call `logger._log` directly with the stacklevel
hint (`kwargs.get("stacklevel", 1)`) increased by `STACKLEVEL_OFFSET`.
The returned value is the emit call performed, or `none` for a no-op. -/
def InstanceLogger.log (self : InstanceLogger) (st : BackendState) (py311 : Bool)
    (level : Nat) (msg : String) (args : List String) (stacklevel : Option Nat) :
    Option EmitCall :=
  if st.disable ≥ level then none
  else
    let selected_level :=
      let m := InstanceLogger._echo_map self.echo
      if m = logging.NOTSET then st.effLevel self.logger else m
    if level ≥ selected_level then
      some
        { level := level
          msg := msg
          args := args
          stacklevel :=
            if STACKLEVEL then stacklevel.getD 1 + STACKLEVEL_OFFSET py311
            else stacklevel.getD 1 }
    else none

/-- The logger binding `instance_logger` attaches: a direct backend logger
(named) or an `InstanceLogger` adapter. -/
inductive LoggerBinding where
  | direct (name : String)
  | adapter (a : InstanceLogger)
deriving DecidableEq, Repr

/-- An entity carrying the `Identified` capability: its class metadata, the
optional `logging_name` label, the stored `_echo` flag, and the logger
binding (`none` before initialization). -/
structure Instance where
  cls : IdentifiedClass
  logging_name : Option String
  _echo : EchoFlag
  logger : Option LoggerBinding
deriving DecidableEq, Repr

/-- The logger-name computation at the head of `instance_logger`: the class's
qualified name, suffixed with `"." + logging_name` when the label is truthy. -/
def instance_logger_name (cls : IdentifiedClass) (logging_name : Option String) : String :=
  if pyTruthy logging_name then
    _qual_logger_name_for_cls cls ++ "." ++ logging_name.getD ""
  else
    _qual_logger_name_for_cls cls

/-- `instance_logger(instance, echoflag)`: compute the name, store the echo
flag on the instance, then bind either a direct backend logger (echo `False`
or `None`) or a fresh `InstanceLogger` (which may attach a default handler). -/
def instance_logger (inst : Instance) (echoflag : EchoFlag) (st : BackendState) :
    Instance × BackendState :=
  let name := instance_logger_name inst.cls inst.logging_name
  let inst1 := { inst with _echo := echoflag }
  match echoflag with
  | .off | .unset =>
      ({ inst1 with logger := some (.direct name) }, st)
  | e =>
      let p := InstanceLogger.init e name st
      ({ inst1 with logger := some (.adapter p.1) }, p.2)

/-- `echo_property.__get__` with a live instance: return the stored `_echo`. -/
def echo_property.get (inst : Instance) : EchoFlag :=
  inst._echo

/-- `echo_property.__set__`: rebuild the binding via `instance_logger`. -/
def echo_property.set (inst : Instance) (value : EchoFlag) (st : BackendState) :
    Instance × BackendState :=
  instance_logger inst value st

/-- The `_should_log_debug` lambda injected by `class_logger`: it closes over
the class-wide logger and ignores `self`. -/
def class_logger_should_log_debug (cls : IdentifiedClass) (_self : Instance)
    (st : BackendState) : Bool :=
  Logger.isEnabledFor st (_qual_logger_name_for_cls cls) logging.DEBUG

/-- The `_should_log_info` lambda injected by `class_logger`: it closes over
the class-wide logger and ignores `self`. -/
def class_logger_should_log_info (cls : IdentifiedClass) (_self : Instance)
    (st : BackendState) : Bool :=
  Logger.isEnabledFor st (_qual_logger_name_for_cls cls) logging.INFO

/-- `isEnabledFor` of whatever binding an instance holds. -/
def LoggerBinding.isEnabledFor : LoggerBinding → BackendState → Nat → Bool
  | .direct name, st, level => Logger.isEnabledFor st name level
  | .adapter a, st, level => InstanceLogger.isEnabledFor a st level

/-- `Identified._should_log_debug` (default implementation): query the
instance's own logger binding; undefined (`none`) before initialization. -/
def Identified._should_log_debug (self : Instance) (st : BackendState) : Option Bool :=
  self.logger.map (fun b => b.isEnabledFor st logging.DEBUG)

/-- `Identified._should_log_info` (default implementation). -/
def Identified._should_log_info (self : Instance) (st : BackendState) : Option Bool :=
  self.logger.map (fun b => b.isEnabledFor st logging.INFO)

/-! ## Theorems -/

/-- C1: for every InstanceLogger and every level not globally suppressed
(manager disable < level), `log(level, msg, args)` forwards to the backend's
low-level emit primitive if and only if `level ≥ selected`, where `selected`
is the echo-mapped level with the backend logger's own effective level
substituted when the map yields NOTSET (exactly `getEffectiveLevel`);
otherwise `log` performs no emission. -/
theorem InstanceLogger.log_emits_iff_selected (self : InstanceLogger)
    (st : BackendState) (py311 : Bool) (level : Nat) (msg : String)
    (args : List String) (sl : Option Nat) (h : st.disable < level) :
    (self.log st py311 level msg args sl).isSome = true ↔
      self.getEffectiveLevel st ≤ level := by
  simp only [InstanceLogger.log, InstanceLogger.getEffectiveLevel]
  rw [if_neg (by omega)]
  split <;> simp_all

theorem InstanceLogger.log_emits_iff_selected_witness :
    (⟨0, fun _ => 30, fun _ => []⟩ : BackendState).disable < 20 ∧
    (((⟨.on, "sqlalchemy.engine.Engine"⟩ : InstanceLogger).log
        ⟨0, fun _ => 30, fun _ => []⟩ false 20 "msg" [] none).isSome = true ↔
      (⟨.on, "sqlalchemy.engine.Engine"⟩ : InstanceLogger).getEffectiveLevel
        ⟨0, fun _ => 30, fun _ => []⟩ ≤ 20) :=
  ⟨by decide,
   InstanceLogger.log_emits_iff_selected _ _ _ _ _ _ _ (by decide)⟩

/-- C2: whenever the manager's global suppression threshold is ≥ level,
`log(level, msg, args)` returns immediately with no emission, for every echo
override value (the suppression check precedes the override check). -/
theorem InstanceLogger.log_suppressed (self : InstanceLogger)
    (st : BackendState) (py311 : Bool) (level : Nat) (msg : String)
    (args : List String) (sl : Option Nat) (h : st.disable ≥ level) :
    self.log st py311 level msg args sl = none := by
  simp only [InstanceLogger.log]
  rw [if_pos h]

theorem InstanceLogger.log_suppressed_witness :
    (⟨50, fun _ => 0, fun _ => []⟩ : BackendState).disable ≥ 10 ∧
    (⟨.debug, "sqlalchemy.pool.Pool"⟩ : InstanceLogger).log
        ⟨50, fun _ => 0, fun _ => []⟩ true 10 "msg" [] none = none :=
  ⟨by decide,
   InstanceLogger.log_suppressed _ _ _ _ _ _ _ (by decide)⟩

/-- C3: the echo map is total and deterministic — Unset and False yield NOTSET
(the no-override sentinel), True yields INFO, "debug" yields DEBUG — and
`getEffectiveLevel` returns exactly DEBUG when echo is "debug" and the backend
logger's own effective level when echo is Unset or False. -/
theorem InstanceLogger.echo_map_and_effective_level :
    InstanceLogger._echo_map .unset = logging.NOTSET ∧
    InstanceLogger._echo_map .off = logging.NOTSET ∧
    InstanceLogger._echo_map .on = logging.INFO ∧
    InstanceLogger._echo_map .debug = logging.DEBUG ∧
    (∀ (name : String) (st : BackendState),
      InstanceLogger.getEffectiveLevel ⟨.debug, name⟩ st = logging.DEBUG) ∧
    (∀ (name : String) (st : BackendState),
      InstanceLogger.getEffectiveLevel ⟨.unset, name⟩ st = st.effLevel name) ∧
    (∀ (name : String) (st : BackendState),
      InstanceLogger.getEffectiveLevel ⟨.off, name⟩ st = st.effLevel name) := by
  refine ⟨rfl, rfl, rfl, rfl, ?_, ?_, ?_⟩ <;> intro name st <;>
    simp [InstanceLogger.getEffectiveLevel, InstanceLogger._echo_map,
      logging.DEBUG, logging.NOTSET]

/-- C4: with the backend manager at its default suppression threshold, an
InstanceLogger with echo override True reports `isEnabledFor(INFO) = true`
regardless of the namespace's ambient effective level (in particular when it
is WARNING or higher). -/
theorem InstanceLogger.isEnabledFor_info_echo_on (name : String)
    (st : BackendState) (h : st.disable = Manager.defaultDisable) :
    InstanceLogger.isEnabledFor ⟨.on, name⟩ st logging.INFO = true := by
  simp [InstanceLogger.isEnabledFor, InstanceLogger.getEffectiveLevel,
    InstanceLogger._echo_map, logging.INFO, logging.NOTSET,
    Manager.defaultDisable, h]

theorem InstanceLogger.isEnabledFor_info_echo_on_witness :
    (⟨0, fun _ => 30, fun _ => []⟩ : BackendState).disable = Manager.defaultDisable ∧
    InstanceLogger.isEnabledFor ⟨.on, "sqlalchemy.engine.Engine"⟩
      ⟨0, fun _ => 30, fun _ => []⟩ logging.INFO = true :=
  ⟨by decide,
   InstanceLogger.isEnabledFor_info_echo_on _ _ (by decide)⟩

/-- C5: on a namespace whose logger has no handler, building an adapter with
echo True attaches exactly one default handler, and building a second adapter
with echo True or "debug" on the same namespace attaches no second handler. -/
theorem InstanceLogger.default_handler_attached_once (st : BackendState)
    (name : String) (h : st.handlers name = []) :
    ((InstanceLogger.init .on name st).2.handlers name).length = 1 ∧
    (InstanceLogger.init .on name (InstanceLogger.init .on name st).2).2.handlers name
      = (InstanceLogger.init .on name st).2.handlers name ∧
    (InstanceLogger.init .debug name (InstanceLogger.init .on name st).2).2.handlers name
      = (InstanceLogger.init .on name st).2.handlers name := by
  simp [InstanceLogger.init, _add_default_handler, InstanceLogger._echo_map,
    logging.INFO, logging.DEBUG, h]

theorem InstanceLogger.default_handler_attached_once_witness :
    (⟨0, fun _ => 30, fun _ => []⟩ : BackendState).handlers "sqlalchemy.engine.Engine" = [] ∧
    (((InstanceLogger.init .on "sqlalchemy.engine.Engine"
        ⟨0, fun _ => 30, fun _ => []⟩).2.handlers "sqlalchemy.engine.Engine").length = 1 ∧
     (InstanceLogger.init .on "sqlalchemy.engine.Engine"
        (InstanceLogger.init .on "sqlalchemy.engine.Engine"
          ⟨0, fun _ => 30, fun _ => []⟩).2).2.handlers "sqlalchemy.engine.Engine"
       = (InstanceLogger.init .on "sqlalchemy.engine.Engine"
          ⟨0, fun _ => 30, fun _ => []⟩).2.handlers "sqlalchemy.engine.Engine" ∧
     (InstanceLogger.init .debug "sqlalchemy.engine.Engine"
        (InstanceLogger.init .on "sqlalchemy.engine.Engine"
          ⟨0, fun _ => 30, fun _ => []⟩).2).2.handlers "sqlalchemy.engine.Engine"
       = (InstanceLogger.init .on "sqlalchemy.engine.Engine"
          ⟨0, fun _ => 30, fun _ => []⟩).2.handlers "sqlalchemy.engine.Engine") :=
  ⟨rfl,
   InstanceLogger.default_handler_attached_once _ _ rfl⟩

/-- Helper: the first component of `InstanceLogger.init` is always the adapter
with the given fields, whichever handler branch is taken. -/
theorem InstanceLogger.init_fst (echo : EchoFlag) (name : String)
    (st : BackendState) : (InstanceLogger.init echo name st).1 = ⟨echo, name⟩ := by
  simp only [InstanceLogger.init]
  split <;> rfl

/-- C6: after every EchoProperty write, exactly one logger binding is attached
to the instance: a direct backend logger if and only if the written echo value
is Unset or False, and an InstanceLogger adapter wrapping that echo value if
and only if the value is True or "debug". -/
theorem echo_property.set_binding_exclusive (inst : Instance) (v : EchoFlag)
    (st : BackendState) :
    ((echo_property.set inst v st).1.logger
        = some (.direct (instance_logger_name inst.cls inst.logging_name))
      ↔ (v = .unset ∨ v = .off)) ∧
    ((echo_property.set inst v st).1.logger
        = some (.adapter ⟨v, instance_logger_name inst.cls inst.logging_name⟩)
      ↔ (v = .on ∨ v = .debug)) := by
  cases v <;>
    simp [echo_property.set, instance_logger, InstanceLogger.init_fst]

/-- C7: writing any echo value v through the EchoProperty and then reading
echo returns exactly v — the stored override (in particular "debug") is
preserved verbatim. -/
theorem echo_property.get_set_roundtrip (inst : Instance) (v : EchoFlag)
    (st : BackendState) :
    echo_property.get (echo_property.set inst v st).1 = v := by
  cases v <;> rfl

/-- Helper: left cancellation for string append, via the underlying
character lists. -/
theorem string_append_left_cancel {s a b : String} (h : s ++ a = s ++ b) :
    a = b := by
  have hd := congrArg String.data h
  simp only [String.data_append] at hd
  exact String.ext (List.append_cancel_left hd)

/-- C8: an instance with a non-empty label resolves to the class's qualified
logger name followed by "." and the label, an unlabeled instance resolves to
the class's qualified name alone; two instances of the same class with
different non-empty labels get distinct namespaces, and two unlabeled
instances share the same namespace. -/
theorem instance_logger_name_resolution (cls : IdentifiedClass)
    (l1 l2 : String) (h1 : l1 ≠ "") (h2 : l2 ≠ "") (hne : l1 ≠ l2) :
    instance_logger_name cls (some l1)
      = _qual_logger_name_for_cls cls ++ "." ++ l1 ∧
    instance_logger_name cls none = _qual_logger_name_for_cls cls ∧
    instance_logger_name cls (some l1) ≠ instance_logger_name cls (some l2) ∧
    instance_logger_name cls none = instance_logger_name cls none := by
  refine ⟨by simp [instance_logger_name, pyTruthy, h1], rfl, ?_, rfl⟩
  simp only [instance_logger_name, pyTruthy, h1, h2, Option.getD_some,
    decide_not, if_pos]
  intro hEq
  exact hne (string_append_left_cancel hEq)

theorem instance_logger_name_resolution_witness :
    ("pool_a" : String) ≠ "" ∧ ("pool_b" : String) ≠ "" ∧
    ("pool_a" : String) ≠ "pool_b" ∧
    (instance_logger_name ⟨none, "sqlalchemy.pool", "Pool"⟩ (some "pool_a")
        = _qual_logger_name_for_cls ⟨none, "sqlalchemy.pool", "Pool"⟩ ++ "." ++ "pool_a" ∧
     instance_logger_name ⟨none, "sqlalchemy.pool", "Pool"⟩ none
        = _qual_logger_name_for_cls ⟨none, "sqlalchemy.pool", "Pool"⟩ ∧
     instance_logger_name ⟨none, "sqlalchemy.pool", "Pool"⟩ (some "pool_a")
        ≠ instance_logger_name ⟨none, "sqlalchemy.pool", "Pool"⟩ (some "pool_b") ∧
     instance_logger_name ⟨none, "sqlalchemy.pool", "Pool"⟩ none
        = instance_logger_name ⟨none, "sqlalchemy.pool", "Pool"⟩ none) :=
  ⟨by decide, by decide, by decide,
   instance_logger_name_resolution _ _ _ (by decide) (by decide) (by decide)⟩

/-- C9 counterexample: on Python ≥ 3.11 (`py311 = true`), an emitting log call
with the default caller hint 1 passes stacklevel 3 to `logger._log`, not
1 + 1 = 2 — the hint exceeds the caller-supplied hint by STACKLEVEL_OFFSET
= 2, not by exactly one. -/
theorem InstanceLogger.log_stacklevel_counterexample :
    (InstanceLogger.log ⟨.debug, "sqlalchemy.engine.Engine"⟩
        ⟨0, fun _ => 30, fun _ => []⟩ true logging.DEBUG "message" []
        none).map EmitCall.stacklevel ≠ some (1 + 1) := by
  decide

/-- C9 amended: when `InstanceLogger.log` emits, the stack-depth hint passed
to the backend emit primitive exceeds the caller-supplied hint (default 1) by
exactly STACKLEVEL_OFFSET: one on Python < 3.11 and two on Python ≥ 3.11. -/
theorem InstanceLogger.log_stacklevel_offset (self : InstanceLogger)
    (st : BackendState) (py311 : Bool) (level : Nat) (msg : String)
    (args : List String) (sl : Option Nat) (e : EmitCall)
    (h : self.log st py311 level msg args sl = some e) :
    e.stacklevel = sl.getD 1 + STACKLEVEL_OFFSET py311 := by
  simp only [InstanceLogger.log] at h
  by_cases h1 : st.disable ≥ level
  · rw [if_pos h1] at h
    exact Option.noConfusion h
  · rw [if_neg h1] at h
    by_cases h2 : level ≥
        (if InstanceLogger._echo_map self.echo = logging.NOTSET
         then st.effLevel self.logger else InstanceLogger._echo_map self.echo)
    · rw [if_pos h2] at h
      have he := Option.some.inj h
      rw [← he]
      simp [STACKLEVEL]
    · rw [if_neg h2] at h
      exact Option.noConfusion h

theorem InstanceLogger.log_stacklevel_offset_witness :
    InstanceLogger.log ⟨.debug, "sqlalchemy.engine.Engine"⟩
        ⟨0, fun _ => 30, fun _ => []⟩ true 10 "message" [] none
      = some ⟨10, "message", [], 3⟩ ∧
    (⟨10, "message", [], 3⟩ : EmitCall).stacklevel
      = (none : Option Nat).getD 1 + STACKLEVEL_OFFSET true :=
  ⟨by decide,
   InstanceLogger.log_stacklevel_offset ⟨.debug, "sqlalchemy.engine.Engine"⟩
     ⟨0, fun _ => 30, fun _ => []⟩ true 10 "message" [] none
     ⟨10, "message", [], 3⟩ (by decide)⟩

/-- C10: the `_should_log_debug` / `_should_log_info` helpers injected by
`class_logger` consult only the class-wide logger, so their result is the same
for any two instances; when the class-wide logger is not enabled for DEBUG
they report false even for an instance whose echo override is "debug" — while
the Identified default implementation, querying that instance's own adapter
binding, reports true (manager disable at its backend default). -/
theorem class_logger_helpers_class_wide (cls : IdentifiedClass)
    (st : BackendState) (i1 i2 : Instance)
    (hnot : Logger.isEnabledFor st (_qual_logger_name_for_cls cls) logging.DEBUG = false)
    (hdis : st.disable = Manager.defaultDisable) :
    class_logger_should_log_debug cls i1 st = class_logger_should_log_debug cls i2 st ∧
    class_logger_should_log_info cls i1 st = class_logger_should_log_info cls i2 st ∧
    class_logger_should_log_debug cls i1 st = false ∧
    Identified._should_log_debug
        { i1 with logger := some (.adapter ⟨.debug, _qual_logger_name_for_cls cls⟩) } st
      = some true := by
  refine ⟨rfl, rfl, hnot, ?_⟩
  simp [Identified._should_log_debug, LoggerBinding.isEnabledFor,
    InstanceLogger.isEnabledFor, InstanceLogger.getEffectiveLevel,
    InstanceLogger._echo_map, logging.DEBUG, logging.NOTSET,
    Manager.defaultDisable, hdis]

theorem class_logger_helpers_class_wide_witness :
    Logger.isEnabledFor ⟨0, fun _ => 30, fun _ => []⟩
        (_qual_logger_name_for_cls ⟨none, "sqlalchemy.engine", "Engine"⟩)
        logging.DEBUG = false ∧
    (⟨0, fun _ => 30, fun _ => []⟩ : BackendState).disable = Manager.defaultDisable ∧
    (class_logger_should_log_debug ⟨none, "sqlalchemy.engine", "Engine"⟩
         ⟨⟨none, "sqlalchemy.engine", "Engine"⟩, none, .debug, none⟩
         ⟨0, fun _ => 30, fun _ => []⟩
       = class_logger_should_log_debug ⟨none, "sqlalchemy.engine", "Engine"⟩
         ⟨⟨none, "sqlalchemy.engine", "Engine"⟩, some "e1", .unset, none⟩
         ⟨0, fun _ => 30, fun _ => []⟩ ∧
     class_logger_should_log_info ⟨none, "sqlalchemy.engine", "Engine"⟩
         ⟨⟨none, "sqlalchemy.engine", "Engine"⟩, none, .debug, none⟩
         ⟨0, fun _ => 30, fun _ => []⟩
       = class_logger_should_log_info ⟨none, "sqlalchemy.engine", "Engine"⟩
         ⟨⟨none, "sqlalchemy.engine", "Engine"⟩, some "e1", .unset, none⟩
         ⟨0, fun _ => 30, fun _ => []⟩ ∧
     class_logger_should_log_debug ⟨none, "sqlalchemy.engine", "Engine"⟩
         ⟨⟨none, "sqlalchemy.engine", "Engine"⟩, none, .debug, none⟩
         ⟨0, fun _ => 30, fun _ => []⟩ = false ∧
     Identified._should_log_debug
         { (⟨⟨none, "sqlalchemy.engine", "Engine"⟩, none, .debug, none⟩ : Instance) with
           logger := some (.adapter ⟨.debug,
             _qual_logger_name_for_cls ⟨none, "sqlalchemy.engine", "Engine"⟩⟩) }
         ⟨0, fun _ => 30, fun _ => []⟩
       = some true) :=
  ⟨by decide, by decide,
   class_logger_helpers_class_wide _ _ _ _ (by decide) (by decide)⟩
